import Mathlib

/-!
Shallow embedding of the resilient-request core of the Auto-salvage
repository (src/src/services/NetworkReliabilityManager.js,
src/src/services/OllamaService.js, src/src/services/CorsProxyService.js),
together with theorems settling the spec claims about it.
-/

namespace AutoSalvage

/-! ## Request queue and connection quality
(NetworkReliabilityManager.js) -/

/-- Request priorities; the source uses the strings
`'high' | 'normal' | 'low'`. -/
inductive Priority where
  | high
  | normal
  | low
deriving DecidableEq, Repr

/-- A queued request as stored in `this.requestQueue`
(NetworkReliabilityManager.js lines 155-163); only the fields the claims
mention are modelled (`requestFunction`/`resolve`/`reject` are opaque
callbacks). -/
structure QueuedReq where
  id : Nat
  priority : Priority
  queuedAt : Nat
deriving DecidableEq, Repr

/-- Connection quality labels
(`'excellent' | 'good' | 'slow' | 'poor' | 'unknown'`). -/
inductive Quality where
  | excellent
  | good
  | slow
  | poor
  | unknown
deriving DecidableEq, Repr

/-- `config.maxQueueSize || 10` (NetworkReliabilityManager.js line 10):
JavaScript `||` replaces the falsy value `0` (and an absent field) by the
default `10`. -/
def configMaxQueueSize (given : Option Nat) : Nat :=
  match given with
  | some n => if n = 0 then 10 else n
  | none => 10

/-- The insertion step of `queueRequest` (lines 165-170): `'high'` is
`unshift`ed at the front, everything else is `push`ed at the back. -/
def insertByPriority (q : List QueuedReq) (r : QueuedReq) : List QueuedReq :=
  if r.priority = Priority.high then r :: q else q ++ [r]

/-- `requestQueue.findIndex(req => req.priority === 'low')` followed by
`splice(lowPriorityIndex, 1)` (lines 145-147): returns the first
low-priority entry in queue order together with the queue with that entry
removed, or `none` when no low-priority entry exists. -/
def removeOldestLow : List QueuedReq → Option (QueuedReq × List QueuedReq)
  | [] => none
  | x :: xs =>
    if x.priority = Priority.low then some (x, xs)
    else
      match removeOldestLow xs with
      | some (e, rest) => some (e, x :: rest)
      | none => none

/-- `NetworkReliabilityManager.queueRequest` admission step (lines
142-179).  On a full queue the oldest low-priority entry is evicted
(rejected with a capacity error) to make room; if none exists the call
throws `'Request queue is full and no low-priority requests to remove'`
and the queue is left unchanged.  The result is the new queue and the
evicted entry, if any. -/
def queueRequest (maxQueueSize : Nat) (q : List QueuedReq) (r : QueuedReq) :
    Except String (List QueuedReq × Option QueuedReq) :=
  if maxQueueSize ≤ q.length then
    match removeOldestLow q with
    | some (evicted, q') => Except.ok (insertByPriority q' r, some evicted)
    | none => Except.error "Request queue is full and no low-priority requests to remove"
  else
    Except.ok (insertByPriority q r, none)

/-- `shouldQueueRequest` (lines 287-290): queue when the connection
quality is poor or the queue already has items. -/
def shouldQueueRequest (connectionQuality : Quality) (queueLength : Nat) : Bool :=
  connectionQuality = Quality.poor || 0 < queueLength

/-- How `executeRequest` (lines 47-64) dispatches a request: queued when
`shouldQueueRequest()` holds and the priority is not `'high'`, otherwise
executed immediately via `executeRequestWithTimeout`. -/
inductive Dispatch where
  | direct
  | queued
deriving DecidableEq, Repr

/-- The dispatch decision of `executeRequest` (line 59):
`if (this.shouldQueueRequest() && priority !== 'high')`. -/
def executeRequestDispatch (connectionQuality : Quality) (queueLength : Nat)
    (priority : Priority) : Dispatch :=
  if shouldQueueRequest connectionQuality queueLength ∧ priority ≠ Priority.high then
    Dispatch.queued
  else
    Dispatch.direct

/-- The sliding-window update of `recordResponseTime` (lines 232-241):
push the new sample, then `shift()` the oldest once the window size is
exceeded. -/
def recordHistory (window : Nat) (hist : List Nat) (t : Nat) : List Nat :=
  let h := hist ++ [t]
  if window < h.length then h.drop 1 else h

/-- `updateConnectionQuality` (lines 250-272): the label from the average
and maximum of the recent response times.  The JavaScript average is an
exact real-number division, modelled in `ℚ`; `Math.max(...recentTimes)`
over the non-empty history is the list maximum. -/
def updateConnectionQuality (slowThreshold verySlowThreshold : Nat)
    (hist : List Nat) : Quality :=
  if hist.length = 0 then Quality.unknown
  else
    let averageTime : ℚ := (hist.sum : ℚ) / (hist.length : ℚ)
    let maxTime : Nat := hist.foldr Nat.max 0
    if averageTime < 1000 ∧ maxTime < 2000 then Quality.excellent
    else if averageTime < 2000 ∧ maxTime < slowThreshold then Quality.good
    else if averageTime < (slowThreshold : ℚ) ∧ maxTime < verySlowThreshold then Quality.slow
    else Quality.poor

/-- `record(timeMs)` of the ConnectionQualityTracker: `recordResponseTime`
(lines 232-245) updates the window and recomputes the label. -/
def recordResponseTime (window slowThreshold verySlowThreshold : Nat)
    (hist : List Nat) (t : Nat) : List Nat × Quality :=
  let h := recordHistory window hist t
  (h, updateConnectionQuality slowThreshold verySlowThreshold h)

/-! ## Error taxonomy, classifier and retry handler (OllamaService.js) -/

/-- The closed error taxonomy used by `OllamaConnectionError.type` and the
retry handler.  `unknownCat` stands for the `'unknown'` string the retry
handler substitutes for errors that are not `OllamaConnectionError`s
(OllamaService.js line 1348). -/
inductive ErrType where
  | timeout
  | network
  | cors
  | auth
  | model
  | server
  | connection
  | unknownCat
deriving DecidableEq, Repr

/-- A JavaScript error value as the retry handler sees it: either a plain
`Error` (with its `name` and `message`) or an `OllamaConnectionError`
(OllamaService.js lines 11-18) carrying a message, a `type` from the
taxonomy and the original error. -/
inductive JsError where
  | plain (name : String) (message : String)
  | ollama (message : String) (etype : ErrType) (original : Option JsError)

/-- `RetryHandler.shouldRetry(error, attempt)` (OllamaService.js lines
1283-1302): never past `this.maxRetries`; for `OllamaConnectionError`s the
types `model`/`cors`/`auth` are never retried and `network`/`timeout`/
`connection`/`server` are; everything else (non-`OllamaConnectionError`)
is retried. -/
def shouldRetry (maxRetries : Nat) (err : JsError) (attempt : Nat) : Bool :=
  if maxRetries ≤ attempt then false
  else
    match err with
    | JsError.ollama _ t _ =>
      if t = ErrType.model ∨ t = ErrType.cors ∨ t = ErrType.auth then false
      else decide (t = ErrType.network ∨ t = ErrType.timeout ∨
                   t = ErrType.connection ∨ t = ErrType.server)
    | JsError.plain _ _ => true

/-- The per-category base delay of `RetryHandler.calculateDelay`
(OllamaService.js lines 1309-1322). -/
def baseDelay : ErrType → ℚ
  | ErrType.timeout => 2000
  | ErrType.network => 1500
  | ErrType.server => 3000
  | _ => 1000

/-- The deterministic part of `calculateDelay` (line 1325):
`Math.min(baseDelay * Math.pow(2, attempt - 1), 15000)`. -/
def exponentialDelay (attempt : Nat) (etype : ErrType) : ℚ :=
  min (baseDelay etype * 2 ^ (attempt - 1)) 15000

/-- `RetryHandler.calculateDelay(attempt, errorType)` (lines 1307-1331);
`rand` models the `Math.random()` draw (`0 ≤ rand < 1`), the jitter is
`rand * 0.2 * exponentialDelay` and is added to the capped exponential
delay. -/
def calculateDelay (attempt : Nat) (etype : ErrType) (rand : ℚ) : ℚ :=
  let e := exponentialDelay attempt etype
  let jitter := rand * (1 / 5) * e
  e + jitter

/-- The loop of `RetryHandler.executeWithRetry` (lines 1333-1368),
starting from `attempt` with `remaining` loop iterations left (the source
runs `for attempt = 1; attempt <= maxRetries`, so `executeWithRetry`
enters with `attempt = 1` and `remaining = maxRetries`; the invariant is
`attempt + remaining = maxRetries + 1`).  `op i` is the settled outcome of
the `i`-th attempt of the operation; the inter-attempt backoff waits do
not affect the settled value and are elided.  When the loop exits without
returning or throwing, the trailing code (lines 1357-1367) wraps the last
`OllamaConnectionError` in a new one carrying `exhaustedMsg`
(`chatConfig.fallbackMessages.retryExhausted` or the
`Failed after N attempts` fallback text) while keeping its type. -/
def retryFrom (maxRetries : Nat) (exhaustedMsg : String)
    (op : Nat → Except JsError α) :
    Nat → Nat → Option JsError → Except JsError α
  | _, 0, lastError =>
    match lastError with
    | some (JsError.ollama m t o) =>
      Except.error (JsError.ollama exhaustedMsg t (some (JsError.ollama m t o)))
    | some e => Except.error e
    | none => Except.error (JsError.plain "TypeError" "undefined")
  | attempt, remaining + 1, _ =>
    match op attempt with
    | Except.ok a => Except.ok a
    | Except.error e =>
      if shouldRetry maxRetries e attempt then
        retryFrom maxRetries exhaustedMsg op (attempt + 1) remaining (some e)
      else Except.error e

/-- `RetryHandler.executeWithRetry(operation)` (lines 1333-1368). -/
def executeWithRetry (maxRetries : Nat) (exhaustedMsg : String)
    (op : Nat → Except JsError α) : Except JsError α :=
  retryFrom maxRetries exhaustedMsg op 1 maxRetries none

/-! ## Error categorization (OllamaService.js lines 386-527) -/

/-- Helper for `includes`: does `sub` occur as a contiguous run of `l`? -/
def includesChars (sub : List Char) : List Char → Bool
  | [] => sub.isEmpty
  | c :: rest => List.isPrefixOf sub (c :: rest) || includesChars sub rest

/-- JavaScript `String.prototype.includes`: substring containment. -/
def includes (s sub : String) : Bool :=
  includesChars sub.data s.data

/-- `isRemoteConnection` (OllamaService.js lines 484-496) on the parsed
hostname of `config.baseUrl`: loopback and private-range hosts count as
local. -/
def isRemoteHostname (hostname : String) : Bool :=
  let h := hostname.toLower
  !(h == "localhost" ||
    h == "127.0.0.1" ||
    h == "::1" ||
    h.startsWith "192.168." ||
    h.startsWith "10." ||
    h.startsWith "172.")

/-- The raw failure object handed to the classifier: its `name`, its
`message`, and whether it is a `TypeError` (for the `instanceof TypeError`
test at line 515). -/
structure RawError where
  name : String
  message : String
  isTypeError : Bool
deriving DecidableEq, Repr

/-- The `chatConfig.fallbackMessages` strings consumed by the classifier
(defined in ChatbotConfig.js); their content is configuration data, so
they are abstract fields here. -/
structure FallbackMessages where
  connectionError : String
  timeoutMsg : String
  remoteTimeout : String
  corsError : String
  remoteServiceUnavailable : String
  remoteConnectionRefused : String
  localServiceNotRunning : String
  localConnectionFailed : String
deriving DecidableEq, Repr

/-- The classifier's result `{errorType, errorMessage}`. -/
structure CategorizedError where
  errorType : ErrType
  errorMessage : String
deriving DecidableEq, Repr

/-- `OllamaService.isCorsError(error)` (lines 501-527): direct CORS
phrasing; `Failed to fetch` on a remote target; a `TypeError` mentioning
`fetch` when `config.corsMode === 'cors'`; opaque-response phrasing. -/
def isCorsError (isRemote : Bool) (corsModeIsCors : Bool) (e : RawError) : Bool :=
  if includes e.message "CORS" || includes e.message "Cross-Origin" ||
     includes e.message "cors" then true
  else if includes e.message "Failed to fetch" && isRemote then true
  else if e.isTypeError && includes e.message "fetch" && corsModeIsCors then true
  else if includes e.message "opaque" || includes e.message "Response" then true
  else false

/-- `OllamaService.categorizeConnectionError(error)` (lines 386-479).
`isRemote` is `this.isRemoteConnection()`; `proxyConfigured` is
`networkConfig.useProxy && networkConfig.corsProxy` (selects the
with-proxy CORS message, line 401); `corsModeIsCors` is
`config.corsMode === 'cors'`. -/
def categorizeConnectionError (fm : FallbackMessages) (isRemote : Bool)
    (proxyConfigured : Bool) (corsModeIsCors : Bool) (e : RawError) :
    CategorizedError :=
  if e.name == "AbortError" then
    { errorType := ErrType.timeout
      errorMessage := if isRemote then fm.remoteTimeout else fm.timeoutMsg }
  else if isCorsError isRemote corsModeIsCors e then
    { errorType := ErrType.cors
      errorMessage :=
        if proxyConfigured then
          "CORS error occurred even with proxy. Please check proxy configuration."
        else if isRemote then
          "CORS error: The remote Ollama server needs to be configured to allow requests from this domain. Please set OLLAMA_ORIGINS environment variable on your PC."
        else fm.corsError }
  else if includes e.message "fetch" || includes e.message "NetworkError" ||
          includes e.message "Failed to fetch" then
    if isRemote then
      if includes e.message "refused" || includes e.message "ECONNREFUSED" then
        { errorType := ErrType.connection, errorMessage := fm.remoteConnectionRefused }
      else
        { errorType := ErrType.network, errorMessage := fm.remoteServiceUnavailable }
    else
      { errorType := ErrType.connection, errorMessage := fm.localServiceNotRunning }
  else if includes e.message "refused" || includes e.message "ECONNREFUSED" then
    { errorType := ErrType.connection
      errorMessage := if isRemote then fm.remoteConnectionRefused else fm.localServiceNotRunning }
  else if includes e.message "ENOTFOUND" || includes e.message "getaddrinfo" ||
          includes e.message "DNS" then
    { errorType := ErrType.network
      errorMessage := if isRemote then fm.remoteServiceUnavailable else fm.localConnectionFailed }
  else if includes e.message "SSL" || includes e.message "TLS" ||
          includes e.message "certificate" then
    { errorType := ErrType.network
      errorMessage := "SSL/TLS connection error. Please check the server certificate." }
  else
    { errorType := ErrType.connection
      errorMessage := if isRemote then fm.remoteServiceUnavailable else fm.connectionError }

/-! ## CORS proxy fallback chain (CorsProxyService.js) -/

/-- The fallback-chain strategies (`'direct' | 'custom' | 'public'`). -/
inductive Strategy where
  | direct
  | custom
  | public
deriving DecidableEq, Repr

/-- The configuration bits `determineProxyStrategies` reads:
`config.useProxy`, the truthiness of `config.corsProxy`, and
`process.env.NODE_ENV === 'production'`. -/
structure ProxyConfig where
  useProxy : Bool
  corsProxy : Bool
  isProduction : Bool
deriving DecidableEq, Repr

/-- `CorsProxyService.determineProxyStrategies` (lines 49-74), run once at
construction: direct first unless proxying is forced, the custom proxy
when configured, public proxies only outside production and without a
custom proxy, direct as a last resort when proxying is forced without a
custom proxy; never empty. -/
def determineProxyStrategies (cfg : ProxyConfig) : List Strategy :=
  let strategies :=
    (if !cfg.useProxy then [Strategy.direct] else []) ++
    (if cfg.corsProxy then [Strategy.custom] else []) ++
    (if !cfg.isProduction && !cfg.corsProxy then [Strategy.public] else []) ++
    (if cfg.useProxy && !cfg.corsProxy then [Strategy.direct] else [])
  if 0 < strategies.length then strategies else [Strategy.direct]

/-- One collected entry of the `errors` array of `makeRequest` (line 86):
the failed strategy and its error message. -/
structure StrategyFailure where
  strategy : Strategy
  message : String
deriving DecidableEq, Repr

/-- The `CorsProxyError` thrown when every strategy failed (lines 92-96):
its message names the last per-strategy error, and the whole `errors`
array is attached as the error payload. -/
structure AggregateError where
  message : String
  errors : List StrategyFailure
deriving DecidableEq, Repr

/-- The loop of `CorsProxyService.makeRequest` (lines 79-97) over the
remaining strategies, with the failures collected so far.  `outcome s` is
the settled result of `executeStrategy(s, url, options)`. -/
def makeRequestGo (outcome : Strategy → Except String ρ) :
    List Strategy → List StrategyFailure → Except AggregateError ρ
  | [], errors =>
    Except.error
      { message := "All CORS proxy strategies failed. Last error: " ++
          (match errors.getLast? with
           | some f => f.message
           | none => "undefined")
        errors := errors }
  | s :: rest, errors =>
    match outcome s with
    | Except.ok r => Except.ok r
    | Except.error m => makeRequestGo outcome rest (errors ++ [{ strategy := s, message := m }])

/-- `CorsProxyService.makeRequest` (lines 79-97) over the strategy order
computed at construction. -/
def makeRequest (cfg : ProxyConfig) (outcome : Strategy → Except String ρ) :
    Except AggregateError ρ :=
  makeRequestGo outcome (determineProxyStrategies cfg) []

/-! ## Streaming response processing (OllamaService.js lines 260-297) -/

/-- One parsed newline-delimited JSON object of the streaming body:
`data.response` when present (JavaScript truthiness makes an empty string
behave like an absent field) and the truthiness of `data.done`. -/
structure StreamObj where
  response : Option String
  done : Bool
deriving DecidableEq, Repr

/-- The line loop of `_sendMessageStreamInternal` (lines 266-297) over the
parsed lines of the body.  A `none` entry is a line `JSON.parse` rejects
(skipped with a warning; blank lines are skipped before parsing).  Returns
the cumulative text, the `onChunk` invocations (fragment, cumulative) in
order, and whether a `done: true` object terminated the stream.  On a
`done` object the function returns at once, so later lines are never
consumed. -/
def processStream (fullResponse : String) (calls : List (String × String)) :
    List (Option StreamObj) → String × List (String × String) × Bool
  | [] => (fullResponse, calls, false)
  | none :: rest => processStream fullResponse calls rest
  | some obj :: rest =>
    let step : String × List (String × String) :=
      match obj.response with
      | some frag =>
        if frag ≠ "" then
          (fullResponse ++ frag, calls ++ [(frag, fullResponse ++ frag)])
        else (fullResponse, calls)
      | none => (fullResponse, calls)
    if obj.done then (step.1, step.2, true)
    else processStream step.1 step.2 rest

/-- Stated from the claim, for comparison with `processStream`: the
concatenation, in arrival order, of the `response` fragments carried by
the lines up to and including the first `done: true` object (an empty
fragment contributes nothing, as JavaScript truthiness skips it in the
source). -/
def specCumulativeText : List (Option StreamObj) → String
  | [] => ""
  | none :: rest => specCumulativeText rest
  | some obj :: rest =>
    let here : String :=
      match obj.response with
      | some frag => if frag ≠ "" then frag else ""
      | none => ""
    if obj.done then here else here ++ specCumulativeText rest

/-- Stated from the claim, for comparison with `processStream`: the
(fragment, cumulative-text) pairs the chunk callback receives, one per
non-empty fragment up to and including the first `done: true` object,
starting from cumulative text `acc`. -/
def specChunkCalls (acc : String) : List (Option StreamObj) → List (String × String)
  | [] => []
  | none :: rest => specChunkCalls acc rest
  | some obj :: rest =>
    match obj.response with
    | some frag =>
      if frag ≠ "" then
        if obj.done then [(frag, acc ++ frag)]
        else (frag, acc ++ frag) :: specChunkCalls (acc ++ frag) rest
      else if obj.done then [] else specChunkCalls acc rest
    | none => if obj.done then [] else specChunkCalls acc rest

/-! ## Deadline cancellation wiring and timer cleanup
(NetworkReliabilityManager.executeRequestWithTimeout, OllamaService
internal senders) -/

/-- Which abort signal the non-streaming sender hands to `fetch`:
`_sendMessageInternal` (OllamaService.js lines 137-163) builds its fetch
options with `signal || controller.signal`, so the executor-provided
signal is used whenever one is passed.  Signals are identified by the
`Nat` id of the `AbortController` that owns them. -/
def nonStreamingFetchSignal (passed : Option Nat) (ownController : Nat) : Nat :=
  match passed with
  | some s => s
  | none => ownController

/-- Which abort signal the streaming sender hands to `fetch`:
`_sendMessageStreamInternal` (OllamaService.js lines 223-249) receives the
executor's `signal` parameter but creates its own `AbortController` (line
235) and always passes `controller.signal` (line 249), so the received
signal is unused. -/
def streamingFetchSignal (passed : Option Nat) (ownController : Nat) : Nat :=
  match passed with
  | some _ => ownController
  | none => ownController

/-- The timer bookkeeping of one `executeRequestWithTimeout` call
(NetworkReliabilityManager.js lines 69-137) once the request function has
settled.  The warning timer (line 74) and the hard-deadline timer (line
84) are always created; the progress interval (line 95) is created only
when `onProgress` is supplied.  On success the interval is cleared (line
105) and `cleanupTimeouts` (line 114) clears both timeouts; on failure the
exception jumps from the `await` (line 102) straight to the `catch` block,
which calls `cleanupTimeouts` (line 128) but never reaches the
`clearInterval` at line 105, so the progress interval is left running. -/
structure TimerOutcome where
  warningCleared : Bool
  deadlineCleared : Bool
  progressCreated : Bool
  progressCleared : Bool
deriving DecidableEq, Repr

/-- The cleared/created state of the three timers after
`executeRequestWithTimeout` settles, as a function of whether `onProgress`
was supplied and whether the request function failed. -/
def executeRequestTimers (hasOnProgress : Bool) (opFailed : Bool) : TimerOutcome :=
  if opFailed then
    { warningCleared := true
      deadlineCleared := true
      progressCreated := hasOnProgress
      progressCleared := false }
  else
    { warningCleared := true
      deadlineCleared := true
      progressCreated := hasOnProgress
      progressCleared := hasOnProgress }

/-! ## Theorems -/

/-- C6: `record(timeMs)` keeps at most the configured window of samples
(default 5), the newest evicting the oldest once the window is full, and
recomputes the label from the window's average and maximum; under the
default thresholds the samples `[500,600,700]` yield Excellent,
`[3000,3500,4000]` yield Slow, `[6000,7000,8000]` yield Poor, and the
empty window yields Unknown. -/
theorem quality_tracker_spec (window slowT vslowT : Nat) (hist : List Nat) (t : Nat)
    (hlen : hist.length ≤ window) :
    (recordHistory window hist t).length ≤ window ∧
    (hist.length = window → 0 < window →
      recordHistory window hist t = hist.drop 1 ++ [t]) ∧
    recordResponseTime window slowT vslowT hist t =
      (recordHistory window hist t,
       updateConnectionQuality slowT vslowT (recordHistory window hist t)) ∧
    updateConnectionQuality 5000 10000 [] = Quality.unknown ∧
    updateConnectionQuality 5000 10000 [500, 600, 700] = Quality.excellent ∧
    updateConnectionQuality 5000 10000 [3000, 3500, 4000] = Quality.slow ∧
    updateConnectionQuality 5000 10000 [6000, 7000, 8000] = Quality.poor := by
  refine ⟨?_, ?_, rfl, by norm_num [updateConnectionQuality],
    by norm_num [updateConnectionQuality], by norm_num [updateConnectionQuality],
    by norm_num [updateConnectionQuality]⟩
  · unfold recordHistory
    dsimp only
    split
    · simp only [List.length_drop, List.length_append, List.length_singleton]
      omega
    · simp only [List.length_append, List.length_singleton] at *
      omega
  · intro hfull hpos
    unfold recordHistory
    dsimp only
    rw [if_pos (by simp [List.length_append]; omega)]
    rw [List.drop_append_of_le_length (by omega)]

/-- Witness for `quality_tracker_spec` at window 5 with a full history. -/
theorem quality_tracker_spec_witness :
    (recordHistory 5 [100, 200, 300, 500, 600] 700).length ≤ 5 ∧
    recordHistory 5 [100, 200, 300, 500, 600] 700 =
      [100, 200, 300, 500, 600].drop 1 ++ [700] ∧
    recordResponseTime 5 5000 10000 [100, 200, 300, 500, 600] 700 =
      (recordHistory 5 [100, 200, 300, 500, 600] 700,
       updateConnectionQuality 5000 10000 (recordHistory 5 [100, 200, 300, 500, 600] 700)) ∧
    updateConnectionQuality 5000 10000 [] = Quality.unknown ∧
    updateConnectionQuality 5000 10000 [500, 600, 700] = Quality.excellent ∧
    updateConnectionQuality 5000 10000 [3000, 3500, 4000] = Quality.slow ∧
    updateConnectionQuality 5000 10000 [6000, 7000, 8000] = Quality.poor :=
  ⟨(quality_tracker_spec 5 5000 10000 [100, 200, 300, 500, 600] 700 (by decide)).1,
   (quality_tracker_spec 5 5000 10000 [100, 200, 300, 500, 600] 700
     (by decide)).2.1 (by decide) (by decide),
   (quality_tracker_spec 5 5000 10000 [100, 200, 300, 500, 600] 700 (by decide)).2.2.1,
   (quality_tracker_spec 5 5000 10000 [100, 200, 300, 500, 600] 700 (by decide)).2.2.2.1,
   (quality_tracker_spec 5 5000 10000 [100, 200, 300, 500, 600] 700 (by decide)).2.2.2.2.1,
   (quality_tracker_spec 5 5000 10000 [100, 200, 300, 500, 600] 700 (by decide)).2.2.2.2.2.1,
   (quality_tracker_spec 5 5000 10000 [100, 200, 300, 500, 600] 700 (by decide)).2.2.2.2.2.2⟩

/-- C8: `shouldRetry` is false once `attempt ≥ maxRetries`; false at any
attempt count for the categories model, cors and auth; true below
`maxRetries` for network, timeout, connection and server; and true,
bounded by `maxRetries`, for unclassified (unknown) errors. -/
theorem should_retry_spec (maxRetries attempt : Nat) (m : String)
    (o : Option JsError) (n msg : String) :
    (∀ e : JsError, maxRetries ≤ attempt → shouldRetry maxRetries e attempt = false) ∧
    (∀ t, (t = ErrType.model ∨ t = ErrType.cors ∨ t = ErrType.auth) →
      shouldRetry maxRetries (JsError.ollama m t o) attempt = false) ∧
    (∀ t, attempt < maxRetries →
      (t = ErrType.network ∨ t = ErrType.timeout ∨ t = ErrType.connection ∨
       t = ErrType.server) →
      shouldRetry maxRetries (JsError.ollama m t o) attempt = true) ∧
    (attempt < maxRetries → shouldRetry maxRetries (JsError.plain n msg) attempt = true) := by
  refine ⟨?_, ?_, ?_, ?_⟩
  · intro e h
    simp [shouldRetry, h]
  · intro t ht
    by_cases hma : maxRetries ≤ attempt
    · simp [shouldRetry, hma]
    · rcases ht with h | h | h <;> subst h <;> simp [shouldRetry, hma]
  · intro t hlt ht
    have hma : ¬ maxRetries ≤ attempt := by omega
    rcases ht with h | h | h | h <;> subst h <;> simp [shouldRetry, hma]
  · intro hlt
    have hma : ¬ maxRetries ≤ attempt := by omega
    simp [shouldRetry, hma]

/-- Witness for `should_retry_spec` at `maxRetries = 3`. -/
theorem should_retry_spec_witness :
    shouldRetry 3 (JsError.ollama "m" ErrType.cors none) 1 = false ∧
    shouldRetry 3 (JsError.ollama "m" ErrType.connection none) 1 = true ∧
    shouldRetry 3 (JsError.plain "Error" "boom") 1 = true ∧
    shouldRetry 3 (JsError.ollama "m" ErrType.connection none) 3 = false :=
  ⟨(should_retry_spec 3 1 "m" none "Error" "boom").2.1 ErrType.cors
      (Or.inr (Or.inl rfl)),
   (should_retry_spec 3 1 "m" none "Error" "boom").2.2.1 ErrType.connection
      (by omega) (Or.inr (Or.inr (Or.inl rfl))),
   (should_retry_spec 3 1 "m" none "Error" "boom").2.2.2 (by omega),
   (should_retry_spec 3 3 "m" none "Error" "boom").1 _ (by omega)⟩

/-- C2 (code bug): when every attempt fails with a retryable
connection-category error, `executeWithRetry` raises the raw last error
unchanged instead of the "retries exhausted" wrapper: `shouldRetry`
returns false at `attempt = maxRetries`, so the in-loop `throw error`
(OllamaService.js line 1344) fires and the wrapping code at lines
1357-1367 is unreachable.  Evaluated at `maxRetries = 3` with every
attempt failing with a connection error: the settled error is the raw
error, not the wrapper the spec (and the repository's own test, which
expects the message `Retry attempts exhausted`) describes. -/
theorem retry_exhaustion_raises_raw_error :
    executeWithRetry 3 "Retry attempts exhausted"
      (fun _ => (Except.error (JsError.ollama "Failed to fetch" ErrType.connection none) :
        Except JsError Unit)) =
      Except.error (JsError.ollama "Failed to fetch" ErrType.connection none) ∧
    (match executeWithRetry 3 "Retry attempts exhausted"
        (fun _ => (Except.error (JsError.ollama "Failed to fetch" ErrType.connection none) :
          Except JsError Unit)) with
     | Except.error (JsError.ollama m _ _) => m
     | _ => "") = "Failed to fetch" ∧
    ("Failed to fetch" == "Retry attempts exhausted") = false :=
  ⟨rfl, rfl, by decide⟩

/-- C3 (code bug): the non-streaming sender passes the executor-provided
abort signal to `fetch` (`signal || controller.signal`), but the streaming
sender always passes its own fresh controller's signal and ignores the
executor's, so the executor's hard-deadline abort is not observed by the
streaming network call. -/
theorem streaming_fetch_ignores_executor_signal :
    (∀ s own : Nat, nonStreamingFetchSignal (some s) own = s) ∧
    (∀ s own : Nat, streamingFetchSignal (some s) own = own) ∧
    nonStreamingFetchSignal (some 1) 2 = 1 ∧
    streamingFetchSignal (some 1) 2 = 2 ∧
    ((2 : Nat) == 1) = false :=
  ⟨fun _ _ => rfl, fun _ _ => rfl, rfl, rfl, by decide⟩

/-- C4 (code bug): the warning and hard-deadline timers are cleared on
both the success and the failure path, and the progress interval is
cleared on success; but on the failure path with `onProgress` supplied the
progress interval is created and never cleared — the `clearInterval` at
line 105 of NetworkReliabilityManager.js is skipped when the awaited
request function throws, and `cleanupTimeouts` does not clear it. -/
theorem progress_interval_leaks_on_failure :
    (∀ p f : Bool, (executeRequestTimers p f).warningCleared = true ∧
      (executeRequestTimers p f).deadlineCleared = true) ∧
    (executeRequestTimers true false).progressCleared = true ∧
    (executeRequestTimers true true).progressCreated = true ∧
    (executeRequestTimers true true).progressCleared = false := by
  decide

/-- The queue discipline's arrival-order invariant for low-priority
entries: among low-priority entries, queue order is non-decreasing
enqueue time (they are only ever `push`ed at the back and removed, never
reordered). -/
def lowsInArrivalOrder (q : List QueuedReq) : Prop :=
  q.Pairwise (fun a b =>
    a.priority = Priority.low → b.priority = Priority.low → a.queuedAt ≤ b.queuedAt)

theorem removeOldestLow_eq_none_iff (q : List QueuedReq) :
    removeOldestLow q = none ↔ ∀ x ∈ q, x.priority ≠ Priority.low := by
  induction q with
  | nil => simp [removeOldestLow]
  | cons x xs ih =>
    by_cases hx : x.priority = Priority.low
    · simp [removeOldestLow, hx]
    · cases h : removeOldestLow xs with
      | none =>
        simp only [removeOldestLow, if_neg hx, h, List.mem_cons]
        constructor
        · intro _ y hy
          rcases hy with rfl | hy
          · exact hx
          · exact (ih.mp h) y hy
        · intro _
          trivial
      | some p =>
        obtain ⟨e, rest⟩ := p
        simp only [removeOldestLow, if_neg hx, h, List.mem_cons]
        constructor
        · intro hcontra
          cases hcontra
        · intro hall
          have hnone : removeOldestLow xs = none :=
            ih.mpr (fun y hy => hall y (Or.inr hy))
          rw [h] at hnone
          cases hnone

theorem removeOldestLow_mem (q rest : List QueuedReq) (e : QueuedReq)
    (h : removeOldestLow q = some (e, rest)) :
    e.priority = Priority.low ∧ e ∈ q ∧ q.length = rest.length + 1 := by
  induction q generalizing rest with
  | nil => cases h
  | cons x xs ih =>
    by_cases hx : x.priority = Priority.low
    · simp only [removeOldestLow, if_pos hx, Option.some.injEq, Prod.mk.injEq] at h
      obtain ⟨rfl, rfl⟩ := h
      exact ⟨hx, List.mem_cons_self _ _, rfl⟩
    · cases hxs : removeOldestLow xs with
      | none =>
        simp [removeOldestLow, hx, hxs] at h
      | some p =>
        obtain ⟨e', rest'⟩ := p
        simp only [removeOldestLow, if_neg hx, hxs, Option.some.injEq, Prod.mk.injEq] at h
        obtain ⟨rfl, rfl⟩ := h
        obtain ⟨h1, h2, h3⟩ := ih rest' hxs
        exact ⟨h1, List.mem_cons_of_mem _ h2, by simp [h3]⟩

theorem removeOldestLow_oldest (q rest : List QueuedReq) (e : QueuedReq)
    (hord : lowsInArrivalOrder q) (h : removeOldestLow q = some (e, rest)) :
    ∀ x ∈ q, x.priority = Priority.low → e.queuedAt ≤ x.queuedAt := by
  induction q generalizing rest with
  | nil => cases h
  | cons y ys ih =>
    rw [lowsInArrivalOrder, List.pairwise_cons] at hord
    obtain ⟨hy, hys⟩ := hord
    by_cases hx : y.priority = Priority.low
    · simp only [removeOldestLow, if_pos hx, Option.some.injEq, Prod.mk.injEq] at h
      obtain ⟨rfl, rfl⟩ := h
      intro x hxmem hxlow
      rcases List.mem_cons.mp hxmem with rfl | hxmem
      · exact le_refl _
      · exact hy x hxmem hx hxlow
    · cases hys' : removeOldestLow ys with
      | none =>
        simp [removeOldestLow, hx, hys'] at h
      | some p =>
        obtain ⟨e', rest'⟩ := p
        simp only [removeOldestLow, if_neg hx, hys', Option.some.injEq, Prod.mk.injEq] at h
        obtain ⟨rfl, rfl⟩ := h
        intro x hxmem hxlow
        rcases List.mem_cons.mp hxmem with rfl | hxmem
        · exact absurd hxlow hx
        · exact ih rest' hys hys' x hxmem hxlow

theorem insertByPriority_length (q : List QueuedReq) (r : QueuedReq) :
    (insertByPriority q r).length = q.length + 1 := by
  unfold insertByPriority
  split <;> simp

/-- C1: admission never grows the queue beyond the configured capacity
(default 10); on a full queue with no low-priority entry admission raises
the capacity error (leaving the queue unchanged); on a full queue with a
low-priority entry, the low-priority entry earliest in queue order — the
oldest, under the queue's arrival-order discipline — is evicted; and
high-priority requests are dispatched directly, never queued. -/
theorem queue_admission_spec (max : Nat) (q : List QueuedReq) (r : QueuedReq)
    (hlen : q.length ≤ max) :
    configMaxQueueSize none = 10 ∧
    (∀ q' ev, queueRequest max q r = Except.ok (q', ev) → q'.length ≤ max) ∧
    (q.length = max → (∀ x ∈ q, x.priority ≠ Priority.low) →
      queueRequest max q r =
        Except.error "Request queue is full and no low-priority requests to remove") ∧
    (q.length = max → (∃ x ∈ q, x.priority = Priority.low) →
      ∃ e rest, removeOldestLow q = some (e, rest) ∧
        queueRequest max q r = Except.ok (insertByPriority rest r, some e) ∧
        e.priority = Priority.low ∧
        (lowsInArrivalOrder q →
          ∀ x ∈ q, x.priority = Priority.low → e.queuedAt ≤ x.queuedAt)) ∧
    (∀ quality qlen, executeRequestDispatch quality qlen Priority.high = Dispatch.direct) := by
  refine ⟨rfl, ?_, ?_, ?_, ?_⟩
  · intro q' ev hok
    by_cases hfull : max ≤ q.length
    · rw [queueRequest, if_pos hfull] at hok
      cases hrem : removeOldestLow q with
      | none => rw [hrem] at hok; cases hok
      | some p =>
        obtain ⟨e, rest⟩ := p
        rw [hrem] at hok
        simp only [Except.ok.injEq, Prod.mk.injEq] at hok
        obtain ⟨rfl, _⟩ := hok
        have := (removeOldestLow_mem q rest e hrem).2.2
        rw [insertByPriority_length]
        omega
    · rw [queueRequest, if_neg hfull] at hok
      simp only [Except.ok.injEq, Prod.mk.injEq] at hok
      obtain ⟨rfl, _⟩ := hok
      rw [insertByPriority_length]
      omega
  · intro hfull hnolow
    rw [queueRequest, if_pos (by omega),
      (removeOldestLow_eq_none_iff q).mpr hnolow]
  · intro hfull hlow
    cases hrem : removeOldestLow q with
    | none =>
      obtain ⟨x, hxmem, hxlow⟩ := hlow
      exact absurd hxlow ((removeOldestLow_eq_none_iff q).mp hrem x hxmem)
    | some p =>
      obtain ⟨e, rest⟩ := p
      refine ⟨e, rest, rfl, ?_, (removeOldestLow_mem q rest e hrem).1, ?_⟩
      · rw [queueRequest, if_pos (by omega), hrem]
      · intro hord
        exact removeOldestLow_oldest q rest e hord hrem
  · intro quality qlen
    simp [executeRequestDispatch]

/-- Witness for `queue_admission_spec` at capacity 2: a full queue with a
low-priority entry admits a new normal entry within capacity, a full queue
of normal entries raises the capacity error, and a high-priority request
dispatches directly. -/
theorem queue_admission_spec_witness :
    configMaxQueueSize none = 10 ∧
    ([⟨1, Priority.normal, 5⟩, ⟨3, Priority.normal, 9⟩] : List QueuedReq).length ≤ 2 ∧
    queueRequest 2 [⟨1, Priority.normal, 5⟩, ⟨2, Priority.normal, 7⟩]
      ⟨3, Priority.normal, 9⟩ =
      Except.error "Request queue is full and no low-priority requests to remove" ∧
    executeRequestDispatch Quality.poor 0 Priority.high = Dispatch.direct :=
  ⟨(queue_admission_spec 2 [⟨1, Priority.normal, 5⟩, ⟨2, Priority.low, 7⟩]
      ⟨3, Priority.normal, 9⟩ (by decide)).1,
   (queue_admission_spec 2 [⟨1, Priority.normal, 5⟩, ⟨2, Priority.low, 7⟩]
      ⟨3, Priority.normal, 9⟩ (by decide)).2.1
      [⟨1, Priority.normal, 5⟩, ⟨3, Priority.normal, 9⟩] (some ⟨2, Priority.low, 7⟩) rfl,
   (queue_admission_spec 2 [⟨1, Priority.normal, 5⟩, ⟨2, Priority.normal, 7⟩]
      ⟨3, Priority.normal, 9⟩ (by decide)).2.2.1 (by decide) (by decide),
   (queue_admission_spec 2 [⟨1, Priority.normal, 5⟩, ⟨2, Priority.low, 7⟩]
      ⟨3, Priority.normal, 9⟩ (by decide)).2.2.2.2 Quality.poor 0⟩

theorem baseDelay_cases (t : ErrType) :
    baseDelay t = 1000 ∨ baseDelay t = 1500 ∨ baseDelay t = 2000 ∨ baseDelay t = 3000 := by
  cases t <;> simp [baseDelay]

theorem baseDelay_ge (t : ErrType) : (1000 : ℚ) ≤ baseDelay t := by
  rcases baseDelay_cases t with h | h | h | h <;> rw [h] <;> norm_num

/-- For every category base, an uncapped exponential delay below the 15s
cap is in fact at most 12000 ms (the bases are 1000/1500/2000/3000, whose
doubling sequences skip the range (12000, 15000)). -/
theorem uncapped_le_12000 (t : ErrType) (k : Nat)
    (h : baseDelay t * 2 ^ k < 15000) : baseDelay t * 2 ^ k ≤ 12000 := by
  have h2 : (1 : ℚ) ≤ 2 := by norm_num
  have hk : k < 4 := by
    by_contra hk
    push_neg at hk
    have hpow : (2 : ℚ) ^ 4 ≤ 2 ^ k := pow_le_pow_right₀ h2 hk
    have hb := baseDelay_ge t
    nlinarith
  rcases baseDelay_cases t with hb | hb | hb | hb <;> rw [hb] at h ⊢ <;>
    interval_cases k <;> norm_num at h ⊢

/-- C7: for every error category and attempt ≥ 1, the retry delay is the
capped exponential `min(base · 2^(attempt-1), 15000)` plus a non-negative
jitter below 20% of that value; it never reaches the cap plus the jitter
bound (18000 ms); it is strictly increasing in the attempt while the cap
has not been reached, for any jitter draws; and the server base delay
exceeds the network base delay. -/
theorem backoff_delay_spec (attempt : Nat) (t : ErrType) (r r' : ℚ)
    (ha : 1 ≤ attempt) (hr0 : 0 ≤ r) (hr1 : r < 1) (hr0' : 0 ≤ r') :
    (exponentialDelay attempt t ≤ calculateDelay attempt t r ∧
     calculateDelay attempt t r < (6 / 5) * exponentialDelay attempt t) ∧
    calculateDelay attempt t r < 18000 ∧
    (baseDelay t * 2 ^ (attempt - 1) < 15000 →
      calculateDelay attempt t r < calculateDelay (attempt + 1) t r') ∧
    baseDelay ErrType.server > baseDelay ErrType.network := by
  have hb := baseDelay_ge t
  have hpow : (0 : ℚ) < 2 ^ (attempt - 1) := by positivity
  have hX : (0 : ℚ) < baseDelay t * 2 ^ (attempt - 1) := by nlinarith
  have hE : (0 : ℚ) < exponentialDelay attempt t := by
    rw [exponentialDelay]
    exact lt_min hX (by norm_num)
  have hE15 : exponentialDelay attempt t ≤ 15000 := min_le_right _ _
  have hlow : exponentialDelay attempt t ≤ calculateDelay attempt t r := by
    rw [calculateDelay]
    nlinarith
  have hhigh : calculateDelay attempt t r < (6 / 5) * exponentialDelay attempt t := by
    rw [calculateDelay]
    nlinarith
  refine ⟨⟨hlow, hhigh⟩, by nlinarith, ?_, by norm_num [baseDelay]⟩
  intro hun
  have hXle : baseDelay t * 2 ^ (attempt - 1) ≤ 12000 := uncapped_le_12000 t _ hun
  have hsucc : (2 : ℚ) ^ ((attempt + 1) - 1) = 2 ^ (attempt - 1) * 2 := by
    have h1 : (attempt + 1) - 1 = (attempt - 1) + 1 := by omega
    rw [h1, pow_succ]
  have hE' : (6 / 5) * exponentialDelay attempt t ≤ exponentialDelay (attempt + 1) t := by
    simp only [exponentialDelay, hsucc]
    rw [min_eq_left hun.le]
    refine le_min ?_ ?_
    · nlinarith
    · nlinarith
  have hlow' : exponentialDelay (attempt + 1) t ≤ calculateDelay (attempt + 1) t r' := by
    have hpow' : (0 : ℚ) < 2 ^ ((attempt + 1) - 1) := by positivity
    have hX' : (0 : ℚ) < baseDelay t * 2 ^ ((attempt + 1) - 1) := by nlinarith
    have hEp : (0 : ℚ) < exponentialDelay (attempt + 1) t := by
      rw [exponentialDelay]
      exact lt_min hX' (by norm_num)
    rw [calculateDelay]
    nlinarith
  calc calculateDelay attempt t r < (6 / 5) * exponentialDelay attempt t := hhigh
    _ ≤ exponentialDelay (attempt + 1) t := hE'
    _ ≤ calculateDelay (attempt + 1) t r' := hlow'

/-- Witness for `backoff_delay_spec` at attempt 2, category network,
jitter draws 1/2 and 1/4. -/
theorem backoff_delay_spec_witness :
    (exponentialDelay 2 ErrType.network ≤ calculateDelay 2 ErrType.network (1 / 2) ∧
     calculateDelay 2 ErrType.network (1 / 2) <
       (6 / 5) * exponentialDelay 2 ErrType.network) ∧
    calculateDelay 2 ErrType.network (1 / 2) < 18000 ∧
    calculateDelay 2 ErrType.network (1 / 2) < calculateDelay 3 ErrType.network (1 / 4) ∧
    baseDelay ErrType.server > baseDelay ErrType.network :=
  ⟨(backoff_delay_spec 2 ErrType.network (1 / 2) (1 / 4)
      (by norm_num) (by norm_num) (by norm_num) (by norm_num)).1,
   (backoff_delay_spec 2 ErrType.network (1 / 2) (1 / 4)
      (by norm_num) (by norm_num) (by norm_num) (by norm_num)).2.1,
   (backoff_delay_spec 2 ErrType.network (1 / 2) (1 / 4)
      (by norm_num) (by norm_num) (by norm_num) (by norm_num)).2.2.1
      (by norm_num [baseDelay]),
   (backoff_delay_spec 2 ErrType.network (1 / 2) (1 / 4)
      (by norm_num) (by norm_num) (by norm_num) (by norm_num)).2.2.2⟩

theorem makeRequestGo_all_fail {ρ : Type} (outcome : Strategy → Except String ρ)
    (msgOf : Strategy → String) :
    ∀ (strats : List Strategy) (acc : List StrategyFailure),
      (∀ s ∈ strats, outcome s = Except.error (msgOf s)) →
      makeRequestGo outcome strats acc =
        Except.error
          { message := "All CORS proxy strategies failed. Last error: " ++
              (match (acc ++ strats.map
                  (fun s => ({ strategy := s, message := msgOf s } : StrategyFailure))).getLast? with
               | some f => f.message
               | none => "undefined")
            errors := acc ++ strats.map
              (fun s => ({ strategy := s, message := msgOf s } : StrategyFailure)) } := by
  intro strats
  induction strats with
  | nil => intro acc _; simp [makeRequestGo]
  | cons s rest ih =>
    intro acc hall
    rw [makeRequestGo]
    simp only [hall s (List.mem_cons_self _ _)]
    rw [ih _ (fun p hp => hall p (List.mem_cons_of_mem _ hp))]
    simp

theorem makeRequestGo_first_success {ρ : Type} (outcome : Strategy → Except String ρ)
    (msgOf : Strategy → String) (r : ρ) :
    ∀ (pre : List Strategy) (s : Strategy) (rest : List Strategy)
      (acc : List StrategyFailure),
      (∀ p ∈ pre, outcome p = Except.error (msgOf p)) →
      outcome s = Except.ok r →
      makeRequestGo outcome (pre ++ s :: rest) acc = Except.ok r := by
  intro pre
  induction pre with
  | nil =>
    intro s rest acc _ hs
    rw [List.nil_append, makeRequestGo, hs]
  | cons p ps ih =>
    intro s rest acc hall hs
    rw [List.cons_append, makeRequestGo, hall p (List.mem_cons_self _ _)]
    exact ih s rest _ (fun x hx => hall x (List.mem_cons_of_mem _ hx)) hs

/-- C9: the strategy order is computed once from configuration — direct
first unless proxying is forced, custom exactly when a custom proxy is
configured, public exactly when outside production with no custom proxy —
and `makeRequest` tries the strategies in that order, returns the first
success without trying later strategies, and on total failure raises an
aggregate error whose payload lists every per-strategy failure. -/
theorem fallback_chain_spec {ρ : Type} (cfg : ProxyConfig)
    (outcome : Strategy → Except String ρ) (msgOf : Strategy → String) (r : ρ) :
    (cfg.useProxy = false → (determineProxyStrategies cfg).head? = some Strategy.direct) ∧
    (Strategy.custom ∈ determineProxyStrategies cfg ↔ cfg.corsProxy = true) ∧
    (Strategy.public ∈ determineProxyStrategies cfg ↔
      (cfg.isProduction = false ∧ cfg.corsProxy = false)) ∧
    (∀ pre s rest, determineProxyStrategies cfg = pre ++ s :: rest →
      (∀ p ∈ pre, outcome p = Except.error (msgOf p)) →
      outcome s = Except.ok r →
      makeRequest cfg outcome = Except.ok r) ∧
    ((∀ s ∈ determineProxyStrategies cfg, outcome s = Except.error (msgOf s)) →
      ∃ agg, makeRequest cfg outcome = Except.error agg ∧
        agg.errors = (determineProxyStrategies cfg).map
          (fun s => ({ strategy := s, message := msgOf s } : StrategyFailure))) := by
  refine ⟨?_, ?_, ?_, ?_, ?_⟩
  · obtain ⟨u, c, p⟩ := cfg
    cases u <;> cases c <;> cases p <;> decide
  · obtain ⟨u, c, p⟩ := cfg
    cases u <;> cases c <;> cases p <;> decide
  · obtain ⟨u, c, p⟩ := cfg
    cases u <;> cases c <;> cases p <;> decide
  · intro pre s rest heq hall hs
    rw [makeRequest, heq]
    exact makeRequestGo_first_success outcome msgOf r pre s rest [] hall hs
  · intro hall
    rw [makeRequest,
      makeRequestGo_all_fail outcome msgOf (determineProxyStrategies cfg) [] hall]
    exact ⟨_, rfl, by simp⟩

/-- Witness for `fallback_chain_spec`: with no forced proxy and a custom
proxy configured the chain is direct-then-custom; a failing direct
strategy falls through to a succeeding custom one. -/
theorem fallback_chain_spec_witness :
    determineProxyStrategies ⟨false, true, false⟩ =
      [Strategy.direct] ++ Strategy.custom :: [] ∧
    makeRequest ⟨false, true, false⟩
      (fun s => match s with
        | Strategy.direct => Except.error "direct blocked by CORS"
        | _ => (Except.ok 42 : Except String Nat)) = Except.ok 42 :=
  ⟨rfl,
   (fallback_chain_spec ⟨false, true, false⟩
      (fun s => match s with
        | Strategy.direct => Except.error "direct blocked by CORS"
        | _ => (Except.ok 42 : Except String Nat))
      (fun _ : Strategy => "direct blocked by CORS") 42).2.2.2.1
     [Strategy.direct] Strategy.custom [] rfl
     (fun p hp => by rw [List.mem_singleton.mp hp]) rfl⟩

theorem processStream_text (lines : List (Option StreamObj)) :
    ∀ (init : String) (calls : List (String × String)),
      (processStream init calls lines).1 = init ++ specCumulativeText lines := by
  induction lines with
  | nil => intro init calls; simp [processStream, specCumulativeText]
  | cons l rest ih =>
    intro init calls
    cases l with
    | none => simp [processStream, specCumulativeText, ih]
    | some obj =>
      obtain ⟨resp, d⟩ := obj
      cases d with
      | true =>
        cases resp with
        | none => simp [processStream, specCumulativeText]
        | some frag =>
          by_cases hf : frag = ""
          · simp [processStream, specCumulativeText, hf]
          · simp [processStream, specCumulativeText, hf]
      | false =>
        cases resp with
        | none => simp [processStream, specCumulativeText, ih]
        | some frag =>
          by_cases hf : frag = ""
          · simp [processStream, specCumulativeText, hf, ih]
          · simp [processStream, specCumulativeText, hf, ih, String.append_assoc]

theorem processStream_calls (lines : List (Option StreamObj)) :
    ∀ (init : String) (calls : List (String × String)),
      (processStream init calls lines).2.1 = calls ++ specChunkCalls init lines := by
  induction lines with
  | nil => intro init calls; simp [processStream, specChunkCalls]
  | cons l rest ih =>
    intro init calls
    cases l with
    | none => simp [processStream, specChunkCalls, ih]
    | some obj =>
      obtain ⟨resp, d⟩ := obj
      cases d with
      | true =>
        cases resp with
        | none => simp [processStream, specChunkCalls]
        | some frag =>
          by_cases hf : frag = ""
          · simp [processStream, specChunkCalls, hf]
          · simp [processStream, specChunkCalls, hf]
      | false =>
        cases resp with
        | none => simp [processStream, specChunkCalls, ih]
        | some frag =>
          by_cases hf : frag = ""
          · simp [processStream, specChunkCalls, hf, ih]
          · simp [processStream, specChunkCalls, hf, ih]

/-- C10: the streaming body processor concatenates the `response`
fragments in arrival order, invokes the chunk callback with each
(non-empty) fragment and the cumulative text, and stops consuming at the
first object carrying `done: true` — the result does not depend on
anything after that object; on the three-line example the cumulative text
is "Hello". -/
theorem streaming_parse_spec (lines : List (Option StreamObj)) (init : String)
    (calls : List (String × String)) (obj : StreamObj)
    (rest rest' : List (Option StreamObj)) :
    (processStream init calls lines).1 = init ++ specCumulativeText lines ∧
    (processStream init calls lines).2.1 = calls ++ specChunkCalls init lines ∧
    (obj.done = true →
      processStream init calls (some obj :: rest) =
        processStream init calls (some obj :: rest') ∧
      (processStream init calls (some obj :: rest)).2.2 = true) ∧
    processStream "" [] [some ⟨some "Hel", false⟩, some ⟨some "lo", false⟩,
        some ⟨none, true⟩] =
      ("Hello", [("Hel", "Hel"), ("lo", "Hello")], true) := by
  refine ⟨processStream_text lines init calls, processStream_calls lines init calls,
    ?_, rfl⟩
  intro hd
  obtain ⟨resp, d⟩ := obj
  cases d with
  | true => exact ⟨rfl, by simp [processStream]⟩
  | false => cases hd

/-- Witness for `streaming_parse_spec`: a terminated stream ignores later
lines, and the documented three-line stream yields "Hello". -/
theorem streaming_parse_spec_witness :
    processStream "" [] [some ⟨some "ignored", true⟩, some ⟨some "later", false⟩] =
      processStream "" [] [some ⟨some "ignored", true⟩] ∧
    (processStream "" [] [some ⟨some "ignored", true⟩,
      some ⟨some "later", false⟩]).2.2 = true ∧
    processStream "" [] [some ⟨some "Hel", false⟩, some ⟨some "lo", false⟩,
        some ⟨none, true⟩] =
      ("Hello", [("Hel", "Hel"), ("lo", "Hello")], true) :=
  ⟨((streaming_parse_spec [] "" [] ⟨some "ignored", true⟩
      [some ⟨some "later", false⟩] []).2.2.1 rfl).1,
   ((streaming_parse_spec [] "" [] ⟨some "ignored", true⟩
      [some ⟨some "later", false⟩] []).2.2.1 rfl).2,
   (streaming_parse_spec [] "" [] ⟨some "ignored", true⟩
      [some ⟨some "later", false⟩] []).2.2.2⟩

theorem categorize_remote_local_cases (fm : FallbackMessages) (pc cm : Bool)
    (e : RawError) :
    (categorizeConnectionError fm true pc cm e).errorType =
      (categorizeConnectionError fm false pc cm e).errorType ∨
    ((includes e.message "fetch" || includes e.message "NetworkError" ||
      includes e.message "Failed to fetch") = true ∧
     (categorizeConnectionError fm false pc cm e).errorType = ErrType.connection ∧
     ((categorizeConnectionError fm true pc cm e).errorType = ErrType.cors ∨
      (categorizeConnectionError fm true pc cm e).errorType = ErrType.network)) := by
  by_cases hab : (e.name == "AbortError") = true
  · left
    simp [categorizeConnectionError, hab]
  · rw [Bool.not_eq_true] at hab
    by_cases hc1 : (includes e.message "CORS" || includes e.message "Cross-Origin" ||
        includes e.message "cors") = true
    · left
      simp [categorizeConnectionError, isCorsError, hab, hc1]
    · rw [Bool.not_eq_true] at hc1
      by_cases hte : (e.isTypeError && includes e.message "fetch" && cm) = true
      · left
        simp [categorizeConnectionError, isCorsError, hab, hc1, hte]
      · rw [Bool.not_eq_true] at hte
        by_cases hop : (includes e.message "opaque" || includes e.message "Response") = true
        · left
          simp [categorizeConnectionError, isCorsError, hab, hc1, hte, hop]
        · rw [Bool.not_eq_true] at hop
          by_cases hff : includes e.message "Failed to fetch" = true
          · right
            refine ⟨by simp [hff], ?_, Or.inl ?_⟩
            · simp [categorizeConnectionError, isCorsError, hab, hc1, hte, hop, hff]
            · simp [categorizeConnectionError, isCorsError, hab, hc1, hte, hop, hff]
          · rw [Bool.not_eq_true] at hff
            by_cases hfe : includes e.message "fetch" = true
            · have hte2 : ¬(e.isTypeError = true ∧ cm = true) := by
                rintro ⟨h1, h2⟩
                rw [h1, hfe, h2] at hte
                simp at hte
              by_cases href : (includes e.message "refused" ||
                  includes e.message "ECONNREFUSED") = true
              · left
                simp [categorizeConnectionError, isCorsError, hab, hc1, hte, hte2, hop,
                  hff, hfe, href]
              · rw [Bool.not_eq_true] at href
                right
                refine ⟨by simp [hfe], ?_, Or.inr ?_⟩
                · simp [categorizeConnectionError, isCorsError, hab, hc1, hte, hte2, hop,
                    hff, hfe, href]
                · simp [categorizeConnectionError, isCorsError, hab, hc1, hte, hte2, hop,
                    hff, hfe, href]
            · rw [Bool.not_eq_true] at hfe
              by_cases hne : includes e.message "NetworkError" = true
              · by_cases href : (includes e.message "refused" ||
                    includes e.message "ECONNREFUSED") = true
                · left
                  simp [categorizeConnectionError, isCorsError, hab, hc1, hte, hop, hff,
                    hfe, hne, href]
                · rw [Bool.not_eq_true] at href
                  right
                  refine ⟨by simp [hne], ?_, Or.inr ?_⟩
                  · simp [categorizeConnectionError, isCorsError, hab, hc1, hte, hop, hff,
                      hfe, hne, href]
                  · simp [categorizeConnectionError, isCorsError, hab, hc1, hte, hop, hff,
                      hfe, hne, href]
              · rw [Bool.not_eq_true] at hne
                left
                simp only [categorizeConnectionError, isCorsError, hab, hc1, hte, hop,
                  hff, hfe, hne, Bool.or_self, Bool.or_false, Bool.false_and,
                  Bool.and_false, Bool.false_or, Bool.or_true, if_false,
                  Bool.false_eq_true, if_true, ite_false, ite_true]
                split_ifs <;> rfl

/-- C5 counterexample: the raw failure `Error: Failed to fetch` is
classified `cors` against a remote target but `connection` against a local
target — the remote/local distinction changes the category itself, and
with it the retry decision, contradicting the claim that it affects only
the message text. -/
theorem remote_local_category_counterexample :
    (categorizeConnectionError
        ⟨"a", "b", "c", "d", "e", "f", "g", "h"⟩ true false false
        ⟨"Error", "Failed to fetch", false⟩).errorType = ErrType.cors ∧
    (categorizeConnectionError
        ⟨"a", "b", "c", "d", "e", "f", "g", "h"⟩ false false false
        ⟨"Error", "Failed to fetch", false⟩).errorType = ErrType.connection ∧
    decide ((categorizeConnectionError
        ⟨"a", "b", "c", "d", "e", "f", "g", "h"⟩ true false false
        ⟨"Error", "Failed to fetch", false⟩).errorType =
      (categorizeConnectionError
        ⟨"a", "b", "c", "d", "e", "f", "g", "h"⟩ false false false
        ⟨"Error", "Failed to fetch", false⟩).errorType) = false ∧
    shouldRetry 3 (JsError.ollama "Failed to fetch" ErrType.cors none) 1 = false ∧
    shouldRetry 3 (JsError.ollama "Failed to fetch" ErrType.connection none) 1 = true := by
  refine ⟨by decide, by decide, by decide, by decide, by decide⟩

/-- C5 (amended): for every raw failure whose message does not match the
generic fetch/network-failure family, the remote/local distinction leaves
the category — and hence the retry decision — unchanged and selects only
the message variant; for fetch-family messages the category can differ,
and then only as `connection` locally versus `cors` or `network`
remotely. -/
theorem remote_local_category_amended (fm : FallbackMessages) (pc cm : Bool)
    (e : RawError) :
    ((includes e.message "fetch" || includes e.message "NetworkError" ||
      includes e.message "Failed to fetch") = false →
      (categorizeConnectionError fm true pc cm e).errorType =
        (categorizeConnectionError fm false pc cm e).errorType ∧
      ∀ maxR att,
        shouldRetry maxR (JsError.ollama e.message
          (categorizeConnectionError fm true pc cm e).errorType none) att =
        shouldRetry maxR (JsError.ollama e.message
          (categorizeConnectionError fm false pc cm e).errorType none) att) ∧
    ((categorizeConnectionError fm true pc cm e).errorType ≠
        (categorizeConnectionError fm false pc cm e).errorType →
      (includes e.message "fetch" || includes e.message "NetworkError" ||
       includes e.message "Failed to fetch") = true ∧
      (categorizeConnectionError fm false pc cm e).errorType = ErrType.connection ∧
      ((categorizeConnectionError fm true pc cm e).errorType = ErrType.cors ∨
       (categorizeConnectionError fm true pc cm e).errorType = ErrType.network)) := by
  rcases categorize_remote_local_cases fm pc cm e with heq | hdiff
  · refine ⟨fun _ => ⟨heq, fun maxR att => by rw [heq]⟩, fun hne => absurd heq hne⟩
  · refine ⟨fun hfam => ?_, fun _ => hdiff⟩
    rw [hdiff.1] at hfam
    cases hfam

/-- Witness for `remote_local_category_amended` on the non-fetch-family
failure `Error: connect ECONNREFUSED 203.0.113.7:11434`: the category is
`connection` for both a remote and a local target. -/
theorem remote_local_category_amended_witness :
    (includes "connect ECONNREFUSED 203.0.113.7:11434" "fetch" ||
     includes "connect ECONNREFUSED 203.0.113.7:11434" "NetworkError" ||
     includes "connect ECONNREFUSED 203.0.113.7:11434" "Failed to fetch") = false ∧
    (categorizeConnectionError ⟨"a", "b", "c", "d", "e", "f", "g", "h"⟩ true false false
        ⟨"Error", "connect ECONNREFUSED 203.0.113.7:11434", false⟩).errorType =
      (categorizeConnectionError ⟨"a", "b", "c", "d", "e", "f", "g", "h"⟩ false false false
        ⟨"Error", "connect ECONNREFUSED 203.0.113.7:11434", false⟩).errorType ∧
    shouldRetry 3 (JsError.ollama "connect ECONNREFUSED 203.0.113.7:11434"
        (categorizeConnectionError ⟨"a", "b", "c", "d", "e", "f", "g", "h"⟩ true false false
          ⟨"Error", "connect ECONNREFUSED 203.0.113.7:11434", false⟩).errorType none) 1 =
      shouldRetry 3 (JsError.ollama "connect ECONNREFUSED 203.0.113.7:11434"
        (categorizeConnectionError ⟨"a", "b", "c", "d", "e", "f", "g", "h"⟩ false false false
          ⟨"Error", "connect ECONNREFUSED 203.0.113.7:11434", false⟩).errorType none) 1 :=
  ⟨by decide,
   ((remote_local_category_amended ⟨"a", "b", "c", "d", "e", "f", "g", "h"⟩ false false
      ⟨"Error", "connect ECONNREFUSED 203.0.113.7:11434", false⟩).1 (by decide)).1,
   ((remote_local_category_amended ⟨"a", "b", "c", "d", "e", "f", "g", "h"⟩ false false
      ⟨"Error", "connect ECONNREFUSED 203.0.113.7:11434", false⟩).1 (by decide)).2 3 1⟩

end AutoSalvage
